import Mathlib

/-!
# Verification of the media-server-rs ownership / lifecycle bridge layer

Shallow embedding of the C++ bridge layer of `media-server-rs`
(`media-server-sys/src/bridge.cc`, `media-server-sys/include/bridge.h`, and the
older `src/bridge.cc` / `src/bridge/bridge.cc` variants).

The external media engine (`RTPBundleTransport`, `DTLSICETransport`,
`RTPIncomingSourceGroup`, ...) is a collaborator outside this layer; every call
the bridge layer makes into it is recorded as an `EngineEvent` in a trace, so
ordering properties ("listener cleared before the session is removed") become
statements about trace decompositions.  Engine decisions the bridge merely
branches on (whether `AddICETransport` returned null, whether
`AddIncomingSourceGroup` accepted the group, what `Init` returned) are oracle
parameters of the corresponding operations.

C++ `std::shared_ptr` reference counting of `OwnedRtpBundleTransportConnection`
is modelled by an explicit count `rc` in `ConnState`; releasing a reference when
the count is 1 runs the destructor body (`transport->RemoveICETransport(username)`).
-/

/-- Calls the bridge layer makes into the external media engine, plus the
destruction of heap objects the bridge owns, in chronological order. -/
inductive EngineEvent where
  /-- `RTPBundleTransport::RemoveICETransport(username)` — deregisters one
  peer session from the bundle transport. -/
  | removeICETransport (username : String)
  /-- `DTLSICETransport::SetListener(l)` on this connection's session;
  `none` is the `nullptr` argument. The `Nat` identifies a
  `DtlsIceTransportListenerCxxAdapter` (a "bridge") object. -/
  | setListener (bridge : Option Nat)
  /-- Destruction of a `DtlsIceTransportListenerCxxAdapter` object. -/
  | destroyBridge (bid : Nat)
  /-- Allocation of a native `RTPIncomingSourceGroup` object. -/
  | allocIncomingSourceGroup (gid : Nat)
  /-- `DTLSICETransport::AddIncomingSourceGroup` succeeded for this group. -/
  | addIncomingSourceGroup (gid : Nat)
  /-- `DTLSICETransport::RemoveIncomingSourceGroup` for this group. -/
  | removeIncomingSourceGroup (gid : Nat)
  /-- Destruction (free) of a native `RTPIncomingSourceGroup` object. -/
  | freeIncomingSourceGroup (gid : Nat)
  deriving DecidableEq, Repr

/-- The engine-side listener slot of this connection's session after a trace:
the argument of the last `SetListener` call (`none` both initially and after
`SetListener(nullptr)`). -/
def listenerAfter (t : List EngineEvent) : Option Nat :=
  t.foldl (fun acc e => match e with
    | .setListener l => l
    | _ => acc) none

/-- State of one peer connection: the username the guard was created with, the
`shared_ptr` reference count of its `OwnedRtpBundleTransportConnection`, the
source groups currently registered with the session, the native source-group
objects currently allocated, and the chronological trace of engine calls. -/
structure ConnState where
  username : String
  rc : Nat
  registered : List Nat
  allocated : List Nat
  trace : List EngineEvent
  deriving DecidableEq, Repr

/-- Release one `shared_ptr` reference to the `OwnedRtpBundleTransportConnection`.
When the last reference goes away the destructor body runs:
`transport->RemoveICETransport(connection->username)`
(`media-server-sys/src/bridge.cc`, lines 98–100). -/
def releaseGuard (s : ConnState) : ConnState :=
  if s.rc = 1 then
    { s with rc := 0, trace := s.trace ++ [EngineEvent.removeICETransport s.username] }
  else
    { s with rc := s.rc - 1 }

/-- `RtpBundleTransportConnectionFacade`: holds the guard reference and the
`active_listener` slot (a `unique_ptr` to the current adapter, `none` =
`nullptr`). -/
structure RtpBundleTransportConnectionFacade where
  active_listener : Option Nat
  deriving DecidableEq, Repr

/-- `RtpBundleTransportConnectionFacade::set_listener` (bridge.cc 121–124):
`active_listener = std::make_unique<DtlsIceTransportListenerCxxAdapter>(...)`
move-assigns the `unique_ptr`, destroying the previous adapter (if any) at that
point; only then does `(*connection)->transport->SetListener(active_listener.get())`
install the new adapter with the engine. -/
def set_listener (newBid : Nat) (f : RtpBundleTransportConnectionFacade)
    (s : ConnState) : RtpBundleTransportConnectionFacade × ConnState :=
  let s1 := match f.active_listener with
    | some old => { s with trace := s.trace ++ [EngineEvent.destroyBridge old] }
    | none => s
  let s2 := { s1 with trace := s1.trace ++ [EngineEvent.setListener (some newBid)] }
  ({ active_listener := some newBid }, s2)

/-- `RtpBundleTransportConnectionFacade::~RtpBundleTransportConnectionFacade`
(bridge.cc 116–119): `(*connection)->transport->SetListener(nullptr);` then
`active_listener = nullptr;` (destroying the adapter if one exists); then the
members are destroyed, releasing the facade's guard reference. -/
def RtpBundleTransportConnectionFacade.destroy
    (f : RtpBundleTransportConnectionFacade) (s : ConnState) : ConnState :=
  let s1 := { s with trace := s.trace ++ [EngineEvent.setListener none] }
  let s2 := match f.active_listener with
    | some b => { s1 with trace := s1.trace ++ [EngineEvent.destroyBridge b] }
    | none => s1
  releaseGuard s2

/-- `RTPBundleTransportConnectionFacade::~RTPBundleTransportConnectionFacade`
of the older bridge (`src/bridge.cc` 85–90 and `src/bridge/bridge.cc` 94–99):
`connection->transport->SetListener(nullptr); active_listener = nullptr;
transport->RemoveICETransport(username);` — no reference counting, removal is
unconditional. -/
def RtpBundleTransportConnectionFacade.destroyLegacy
    (f : RtpBundleTransportConnectionFacade) (s : ConnState) : ConnState :=
  let s1 := { s with trace := s.trace ++ [EngineEvent.setListener none] }
  let s2 := match f.active_listener with
    | some b => { s1 with trace := s1.trace ++ [EngineEvent.destroyBridge b] }
    | none => s1
  { s2 with trace := s2.trace ++ [EngineEvent.removeICETransport s.username] }

/-- `MediaFrame::Type` of the external engine. -/
inductive MediaFrameType where
  | Audio
  | Video
  | Text
  deriving DecidableEq, Repr

/-- The fields of a native `RTPIncomingSourceGroup` that
`add_incoming_source_group` fills in (bridge.cc 135–140). -/
structure RTPIncomingSourceGroup where
  mediaType : MediaFrameType
  mid : String
  rid : String
  mediaSsrc : Nat
  rtxSsrc : Nat
  deriving DecidableEq, Repr

/-- The bridge error type: every failure in this layer is a thrown
`std::runtime_error` carrying a message. -/
inductive BridgeError where
  | runtimeError (msg : String)
  deriving DecidableEq, Repr

/-- `RtpIncomingSourceGroupFacade` (the `media-server-sys/src/bridge.cc`
variant): holds a guard reference and the `unique_ptr` to the native group,
identified here by `gid`. -/
structure RtpIncomingSourceGroupFacade where
  gid : Nat
  source_group : RTPIncomingSourceGroup
  deriving DecidableEq, Repr

/-- `RtpBundleTransportConnectionFacade::add_incoming_source_group`
(bridge.cc 134–147): allocates a native `RTPIncomingSourceGroup`, fills in its
fields, and calls `AddIncomingSourceGroup` on the session.  `accept` is the
engine's verdict.  On rejection the code throws
`std::runtime_error("failed to add incoming source group")`; stack unwinding
destroys the local `unique_ptr`, freeing the just-allocated group.  On success
a facade is built sharing the guard (`rc + 1`). -/
def add_incoming_source_group (accept : Bool) (gid : Nat) (ty : MediaFrameType)
    (mid rid : String) (mediaSsrc rtxSsrc : Nat) (s : ConnState) :
    Except BridgeError RtpIncomingSourceGroupFacade × ConnState :=
  let source_group : RTPIncomingSourceGroup :=
    { mediaType := ty, mid := mid, rid := rid,
      mediaSsrc := mediaSsrc, rtxSsrc := rtxSsrc }
  let s1 := { s with allocated := s.allocated ++ [gid],
                     trace := s.trace ++ [EngineEvent.allocIncomingSourceGroup gid] }
  if accept then
    (.ok { gid := gid, source_group := source_group },
     { s1 with rc := s1.rc + 1,
               registered := s1.registered ++ [gid],
               trace := s1.trace ++ [EngineEvent.addIncomingSourceGroup gid] })
  else
    (.error (.runtimeError "failed to add incoming source group"),
     { s1 with allocated := s1.allocated.filter (fun g => g ≠ gid),
               trace := s1.trace ++ [EngineEvent.freeIncomingSourceGroup gid] })

/-- `RtpIncomingSourceGroupFacade::~RtpIncomingSourceGroupFacade`
(bridge.cc 109–111): the destructor body calls
`(*connection)->transport->RemoveIncomingSourceGroup(source_group.get())`;
then member destruction frees the native group (`unique_ptr source_group`) and
releases the guard reference (`shared_ptr connection`). -/
def RtpIncomingSourceGroupFacade.destroy (g : RtpIncomingSourceGroupFacade)
    (s : ConnState) : ConnState :=
  let s1 := { s with registered := s.registered.erase g.gid,
                     trace := s.trace ++ [EngineEvent.removeIncomingSourceGroup g.gid] }
  let s2 := { s1 with allocated := s1.allocated.filter (fun x => x ≠ g.gid),
                      trace := s1.trace ++ [EngineEvent.freeIncomingSourceGroup g.gid] }
  releaseGuard s2

/-- One holder of the connection guard being dropped: either the Connection
Facade or one Incoming Source Group Facade. -/
inductive DropAct where
  | conn (f : RtpBundleTransportConnectionFacade)
  | group (g : RtpIncomingSourceGroupFacade)
  deriving DecidableEq, Repr

/-- Run a sequence of facade drops against the connection state. -/
def runDrops : List DropAct → ConnState → ConnState
  | [], s => s
  | .conn f :: rest, s => runDrops rest (f.destroy s)
  | .group g :: rest, s => runDrops rest (g.destroy s)

/-- Number of `RemoveICETransport u` calls recorded so far. -/
def countRemovals (u : String) (s : ConnState) : Nat :=
  s.trace.count (.removeICETransport u)

/-- `RtpBundleTransportFacade`: owns the shared `RTPBundleTransport`, which in
turn holds the bound UDP socket (`localPort`) and the map of active sessions
keyed by ICE username (`sessions`). -/
structure RtpBundleTransportFacade where
  sessions : List String
  localPort : Nat
  deriving DecidableEq, Repr

/-- `RtpBundleTransportFacade::RtpBundleTransportFacade(port)`
(`media-server-sys/src/bridge.cc` 154–159, identical in
`src/bridge/bridge.cc` 111–116): constructs the `RTPBundleTransport` and calls
`Init(port)`, which binds the UDP socket (port 0 requests an ephemeral port).
`bindResult` is the engine's `Init` result: `0` means the socket could not be
opened, any other value is the bound port.  On `0` the constructor throws
`std::runtime_error("failed to open socket")` and the facade (with its
transport member) is destroyed during unwinding — no registry state survives. -/
def new_rtp_bundle_transport (bindResult : Nat → Nat) (port : Nat) :
    Except BridgeError RtpBundleTransportFacade :=
  if bindResult port = 0 then
    .error (.runtimeError "failed to open socket")
  else
    .ok { sessions := [], localPort := bindResult port }

/-- `RtpBundleTransportFacade::get_local_port` (bridge.cc 161–163). -/
def get_local_port (t : RtpBundleTransportFacade) : Nat :=
  t.localPort

/-- `RtpBundleTransportFacade::add_ice_transport`
(`media-server-sys/src/bridge.cc` 165–176): calls the engine's
`AddICETransport(username, properties)`, which returns a null connection when a
session for `username` already exists or on a lower-level failure (`engineOk`
is the oracle for the latter). A null connection makes the bridge throw the
single `std::runtime_error("ice transport creation failed")`. On success a
guard (`rc = 1`) and a facade are constructed and the session is registered. -/
def add_ice_transport (engineOk : Bool) (u : String)
    (t : RtpBundleTransportFacade) :
    Except BridgeError (RtpBundleTransportConnectionFacade × ConnState) ×
      RtpBundleTransportFacade :=
  if u ∈ t.sessions ∨ engineOk = false then
    (.error (.runtimeError "ice transport creation failed"), t)
  else
    (.ok ({ active_listener := none },
          { username := u, rc := 1, registered := [], allocated := [],
            trace := [] }),
     { t with sessions := t.sessions ++ [u] })

/-- `RtpBundleTransportFacade::add_ice_transport` of the older bridge
(`src/bridge.cc` 104–113): on a null connection it silently returns `nullptr`
to the caller (the code carries a TODO noting it should throw instead). -/
def add_ice_transport_legacy (engineOk : Bool) (u : String)
    (t : RtpBundleTransportFacade) :
    Option (RtpBundleTransportConnectionFacade × ConnState) ×
      RtpBundleTransportFacade :=
  if u ∈ t.sessions ∨ engineOk = false then
    (none, t)
  else
    (some ({ active_listener := none },
           { username := u, rc := 1, registered := [], allocated := [],
             trace := [] }),
     { t with sessions := t.sessions ++ [u] })

/-!
## Stream Transponder (spec-modelled)

`RtpStreamTransponderFacade` is declared in `media-server-sys/include/bridge.h`
(lines 97–105) with fields
`shared_ptr<OwnedRtpIncomingSourceGroup> incoming`,
`shared_ptr<OwnedRtpOutgoingSourceGroup> outgoing`,
`unique_ptr<RTPStreamTransponder> transponder`, but the bodies of its
constructor and `set_incoming` are not among the sources.  The operations below
are therefore modelled from the spec (§4.5): the shared reference counts of the
Owned source-group objects are explicit (`Nat → Nat` maps keyed by group id),
and a group whose count reaches zero is destroyed.
-/

/-- Reference counts and destruction records for the shared
`OwnedRtpIncomingSourceGroup` / `OwnedRtpOutgoingSourceGroup` objects. -/
structure GroupHeap where
  incomingRc : Nat → Nat
  outgoingRc : Nat → Nat
  destroyedIncoming : List Nat
  destroyedOutgoing : List Nat

/-- Acquire one shared reference to an incoming Owned group. -/
def incInRef (gid : Nat) (h : GroupHeap) : GroupHeap :=
  { h with incomingRc := fun k => if k = gid then h.incomingRc gid + 1 else h.incomingRc k }

/-- Release one shared reference to an incoming Owned group; on last release
the group is destroyed. -/
def decInRef (gid : Nat) (h : GroupHeap) : GroupHeap :=
  if h.incomingRc gid = 1 then
    { h with incomingRc := fun k => if k = gid then 0 else h.incomingRc k,
             destroyedIncoming := h.destroyedIncoming ++ [gid] }
  else
    { h with incomingRc := fun k => if k = gid then h.incomingRc gid - 1 else h.incomingRc k }

/-- Acquire one shared reference to an outgoing Owned group. -/
def incOutRef (gid : Nat) (h : GroupHeap) : GroupHeap :=
  { h with outgoingRc := fun k => if k = gid then h.outgoingRc gid + 1 else h.outgoingRc k }

/-- Modelled from the spec: the Stream Transponder's own state — shared
ownership of one fixed Outgoing Group and of one replaceable Incoming Group
(§3 Stream Transponder; the field layout follows the declaration in
`media-server-sys/include/bridge.h` 97–105, whose member bodies are missing
from the sources). -/
structure RtpStreamTransponderFacade where
  outgoing : Nat
  incoming : Option Nat

/-- Modelled from the spec (§4.5 `create(outgoing)`): a transponder is created
Unbound, holding a shared reference to the Outgoing Group only
(`RtpOutgoingSourceGroupFacade::add_transponder`, declaration only in
`media-server-sys/include/bridge.h` 89). -/
def transponder_create (outgoingGid : Nat) (h : GroupHeap) :
    RtpStreamTransponderFacade × GroupHeap :=
  ({ outgoing := outgoingGid, incoming := none }, incOutRef outgoingGid h)

/-- Modelled from the spec (§4.5 `set_incoming`): installs the new Incoming
Group as relay source, replacing any prior one — the transponder takes a shared
reference to the new group and releases its reference to the previous group;
the Outgoing Group is untouched (`RtpStreamTransponderFacade::set_incoming`,
declaration only in `media-server-sys/include/bridge.h` 99). -/
def transponder_set_incoming (tr : RtpStreamTransponderFacade) (newGid : Nat)
    (h : GroupHeap) : RtpStreamTransponderFacade × GroupHeap :=
  let h1 := incInRef newGid h
  let h2 := match tr.incoming with
    | some old => decInRef old h1
    | none => h1
  ({ tr with incoming := some newGid }, h2)

/-- Dropping an `RtpIncomingSourceGroupFacade` of the header variant
(`media-server-sys/include/bridge.h` 65–72): the facade only holds a
`shared_ptr<OwnedRtpIncomingSourceGroup>`, so dropping it releases one shared
reference to the Owned group. -/
def drop_incoming_facade (gid : Nat) (h : GroupHeap) : GroupHeap :=
  decInRef gid h

/-!
## Lemmas about guard release and facade drops
-/

/-- Apply one facade drop. -/
def applyDrop : DropAct → ConnState → ConnState
  | .conn f, s => f.destroy s
  | .group g, s => g.destroy s

/-- `runDrops` unfolds one drop at a time. -/
theorem runDrops_cons (a : DropAct) (acts : List DropAct) (s : ConnState) :
    runDrops (a :: acts) s = runDrops acts (applyDrop a s) := by
  cases a <;> rfl

/-- Releasing a guard reference never changes the username. -/
theorem releaseGuard_username (s : ConnState) :
    (releaseGuard s).username = s.username := by
  unfold releaseGuard; split <;> rfl

/-- Releasing a guard reference decrements the count by one. -/
theorem releaseGuard_rc (s : ConnState) : (releaseGuard s).rc = s.rc - 1 := by
  unfold releaseGuard; split <;> simp [*]

/-- Releasing a guard reference emits `RemoveICETransport` exactly when the
released reference was the last one. -/
theorem countRemovals_releaseGuard (s : ConnState) :
    countRemovals s.username (releaseGuard s)
      = countRemovals s.username s + (if s.rc = 1 then 1 else 0) := by
  unfold countRemovals releaseGuard
  split <;> simp [*, List.count_append]

/-- Transfer lemma: the effect of `releaseGuard` on a state that differs from
`s` only by removal-free trace additions. -/
theorem releaseGuard_key (s t : ConnState) (hu : t.username = s.username)
    (hrc : t.rc = s.rc)
    (hcnt : t.trace.count (EngineEvent.removeICETransport s.username)
        = s.trace.count (EngineEvent.removeICETransport s.username)) :
    (releaseGuard t).username = s.username ∧
    (releaseGuard t).rc = s.rc - 1 ∧
    countRemovals s.username (releaseGuard t)
      = countRemovals s.username s + (if s.rc = 1 then 1 else 0) := by
  refine ⟨by rw [releaseGuard_username, hu], by rw [releaseGuard_rc, hrc], ?_⟩
  have h1 := countRemovals_releaseGuard t
  rw [hu] at h1
  rw [h1, hrc]
  unfold countRemovals
  rw [hcnt]

/-- One facade drop: username preserved, reference count down by one, and a
`RemoveICETransport` emitted exactly when the dropped facade held the last
reference. -/
theorem applyDrop_spec (a : DropAct) (s : ConnState) :
    (applyDrop a s).username = s.username ∧
    (applyDrop a s).rc = s.rc - 1 ∧
    countRemovals s.username (applyDrop a s)
      = countRemovals s.username s + (if s.rc = 1 then 1 else 0) := by
  cases a with
  | conn f =>
    cases hal : f.active_listener with
    | none =>
      simp only [applyDrop, RtpBundleTransportConnectionFacade.destroy, hal]
      exact releaseGuard_key s _ rfl rfl (by simp [List.count_append])
    | some b =>
      simp only [applyDrop, RtpBundleTransportConnectionFacade.destroy, hal]
      exact releaseGuard_key s _ rfl rfl (by simp [List.count_append])
  | group g =>
    simp only [applyDrop, RtpIncomingSourceGroupFacade.destroy]
    exact releaseGuard_key s _ rfl rfl (by simp [List.count_append])

/-- A sample incoming source group used by the concrete witnesses. -/
def sampleGroup : RTPIncomingSourceGroup :=
  { mediaType := MediaFrameType.Video, mid := "0", rid := "", mediaSsrc := 111, rtxSsrc := 112 }

/-- A sample incoming source-group facade used by the concrete witnesses. -/
def sampleGroupFacade : RtpIncomingSourceGroupFacade :=
  { gid := 5, source_group := sampleGroup }

/-- A sample connection facade (no listener set) used by the concrete witnesses. -/
def sampleConnFacade : RtpBundleTransportConnectionFacade :=
  { active_listener := none }

/-- A sample connection state whose guard is held by two facades. -/
def sampleConn2 : ConnState :=
  { username := "alice", rc := 2, registered := [5], allocated := [5], trace := [] }

/-- Running any sequence of facade drops: the username is preserved, each drop
releases exactly one guard reference, and `RemoveICETransport` has been called
exactly once if the drops consumed every reference, and not at all otherwise. -/
theorem runDrops_spec (acts : List DropAct) (s : ConnState)
    (hlen : acts.length ≤ s.rc) (h0 : countRemovals s.username s = 0) :
    (runDrops acts s).username = s.username ∧
    (runDrops acts s).rc = s.rc - acts.length ∧
    countRemovals s.username (runDrops acts s)
      = (if s.rc = acts.length ∧ 0 < s.rc then 1 else 0) := by
  induction acts generalizing s with
  | nil =>
    refine ⟨rfl, by simp [runDrops], ?_⟩
    simp only [runDrops, List.length_nil]
    rw [h0, if_neg (by omega)]
  | cons a acts ih =>
    rw [runDrops_cons]
    obtain ⟨hu, hrc, hcnt⟩ := applyDrop_spec a s
    have hposS : 1 ≤ s.rc := le_trans (by simp) hlen
    by_cases h1 : s.rc = 1
    · have hnil : acts = [] := by
        cases acts with
        | nil => rfl
        | cons x xs => exfalso; simp only [List.length_cons] at hlen; omega
      subst hnil
      refine ⟨hu, ?_, ?_⟩
      · show (applyDrop a s).rc = s.rc - [a].length
        rw [hrc]; simp
      · show countRemovals s.username (applyDrop a s)
            = if s.rc = [a].length ∧ 0 < s.rc then 1 else 0
        rw [hcnt, h0, if_pos h1,
          if_pos (show s.rc = [a].length ∧ 0 < s.rc from ⟨by simpa using h1, by omega⟩)]
    · have h0s : countRemovals (applyDrop a s).username (applyDrop a s) = 0 := by
        rw [hu, hcnt, h0, if_neg h1]
      have hlens : acts.length ≤ (applyDrop a s).rc := by
        rw [hrc]; simp only [List.length_cons] at hlen; omega
      obtain ⟨iu, irc, icnt⟩ := ih (applyDrop a s) hlens h0s
      rw [hu] at iu icnt
      refine ⟨iu, by rw [irc, hrc]; simp only [List.length_cons]; omega, ?_⟩
      rw [icnt, hrc]
      have hiff : (s.rc - 1 = acts.length ∧ 0 < s.rc - 1)
          ↔ (s.rc = (a :: acts).length ∧ 0 < s.rc) := by
        simp only [List.length_cons]; omega
      by_cases hc : s.rc - 1 = acts.length ∧ 0 < s.rc - 1
      · rw [if_pos hc, if_pos (hiff.mp hc)]
      · rw [if_neg hc, if_neg (fun h => hc (hiff.mpr h))]

/-- **C1.** For every connection created by the registry, the deregistration
call `RemoveICETransport(username)` is invoked exactly once, triggered
precisely when the last holder (Connection Facade or any Source Group Facade)
releases its shared ownership of the Connection Guard: for any sequence of
facade drops that releases all `s.rc` guard references, the final trace
contains exactly one `RemoveICETransport`, while after any proper prefix of the
sequence it contains none (so no drop order produces zero or two removals). -/
theorem removeICETransport_exactly_once (acts : List DropAct) (s : ConnState)
    (k : Nat) (hrc : s.rc = acts.length) (hpos : 0 < s.rc)
    (h0 : countRemovals s.username s = 0) :
    countRemovals s.username (runDrops acts s) = 1 ∧
    (k < acts.length → countRemovals s.username (runDrops (acts.take k) s) = 0) := by
  constructor
  · have h := (runDrops_spec acts s (le_of_eq hrc.symm) h0).2.2
    rw [h, if_pos ⟨hrc, hpos⟩]
  · intro hk
    have h := (runDrops_spec (acts.take k) s
      (by simp only [List.length_take]; omega) h0).2.2
    rw [h, if_neg (by simp only [List.length_take]; omega)]

/-- Closed witness for `removeICETransport_exactly_once`: a connection guard
held by a Connection Facade and one Source Group Facade; dropping the facade
alone removes nothing, dropping both removes the session exactly once. -/
theorem removeICETransport_exactly_once_witness :
    countRemovals "alice"
      (runDrops [DropAct.conn sampleConnFacade, DropAct.group sampleGroupFacade]
        sampleConn2) = 1 ∧
    countRemovals "alice"
      (runDrops ([DropAct.conn sampleConnFacade, DropAct.group sampleGroupFacade].take 1)
        sampleConn2) = 0 := by
  have h := removeICETransport_exactly_once
    [DropAct.conn sampleConnFacade, DropAct.group sampleGroupFacade]
    sampleConn2 1 rfl (by decide) rfl
  exact ⟨h.1, h.2 (by decide)⟩

/-- **C2.** For every connection with at least one live Source Group Facade
derived from it, destroying the Connection Facade does not deregister the
session (`RemoveICETransport` is not called); the session is removed only when
the last referencing facade is dropped: with the guard held by the Connection
Facade and `gs.length ≥ 1` group facades, dropping the Connection Facade emits
no removal, dropping it together with all but the last group still emits none,
and dropping all holders emits exactly one. -/
theorem sourceGroup_keeps_connection_alive (f : RtpBundleTransportConnectionFacade)
    (gs : List RtpIncomingSourceGroupFacade) (s : ConnState)
    (hrc : s.rc = gs.length + 1) (hgs : gs ≠ [])
    (h0 : countRemovals s.username s = 0) :
    countRemovals s.username (f.destroy s) = 0 ∧
    countRemovals s.username
      (runDrops (DropAct.conn f :: gs.dropLast.map DropAct.group) s) = 0 ∧
    countRemovals s.username (runDrops (DropAct.conn f :: gs.map DropAct.group) s) = 1 := by
  have hgpos : 0 < gs.length := List.length_pos.mpr hgs
  refine ⟨?_, ?_, ?_⟩
  · have h := (runDrops_spec [DropAct.conn f] s (by simp; omega) h0).2.2
    have hde : f.destroy s = runDrops [DropAct.conn f] s := rfl
    rw [hde, h, if_neg (by simp; omega)]
  · have h := (runDrops_spec (DropAct.conn f :: gs.dropLast.map DropAct.group) s
      (by simp [List.length_dropLast]; omega) h0).2.2
    rw [h, if_neg (by simp [List.length_dropLast]; omega)]
  · have h := (runDrops_spec (DropAct.conn f :: gs.map DropAct.group) s
      (by simp; omega) h0).2.2
    rw [h, if_pos (by simp; omega)]

/-- Closed witness for `sourceGroup_keeps_connection_alive`: one Connection
Facade plus one Source Group Facade; dropping the Connection Facade alone does
not remove the session, dropping both does, once. -/
theorem sourceGroup_keeps_connection_alive_witness :
    countRemovals "alice" (sampleConnFacade.destroy sampleConn2) = 0 ∧
    countRemovals "alice"
      (runDrops (DropAct.conn sampleConnFacade ::
        ([sampleGroupFacade].dropLast.map DropAct.group)) sampleConn2) = 0 ∧
    countRemovals "alice"
      (runDrops (DropAct.conn sampleConnFacade ::
        ([sampleGroupFacade].map DropAct.group)) sampleConn2) = 1 :=
  sourceGroup_keeps_connection_alive sampleConnFacade [sampleGroupFacade]
    sampleConn2 rfl (by decide) rfl

/-- **C4.** Destroying a Connection Facade clears the listener
(`SetListener(nullptr)`) strictly before the guard reference is released, and
hence before any `RemoveICETransport`: the destructor appends, in order, the
listener-clear event, then the destruction of the active adapter (if any), and
only then — when the facade held the last reference — the session removal.  The
same order holds unconditionally in the legacy destructor of `src/bridge.cc`,
which always removes the session last. -/
theorem listener_cleared_before_removal (f : RtpBundleTransportConnectionFacade)
    (s : ConnState) :
    (f.destroy s).trace
      = s.trace ++ [EngineEvent.setListener none]
          ++ (match f.active_listener with
              | some b => [EngineEvent.destroyBridge b]
              | none => [])
          ++ (if s.rc = 1 then [EngineEvent.removeICETransport s.username] else []) ∧
    (f.destroyLegacy s).trace
      = s.trace ++ [EngineEvent.setListener none]
          ++ (match f.active_listener with
              | some b => [EngineEvent.destroyBridge b]
              | none => [])
          ++ [EngineEvent.removeICETransport s.username] := by
  cases hal : f.active_listener <;>
    refine ⟨?_, ?_⟩ <;>
    simp [RtpBundleTransportConnectionFacade.destroy,
      RtpBundleTransportConnectionFacade.destroyLegacy, releaseGuard, hal] <;>
    split <;> simp

/-- **C7.** Destroying a Source Group Facade deregisters the native group from
the transport (`RemoveIncomingSourceGroup`) first, then frees the native state,
and only then releases the guard reference — so any `RemoveICETransport` the
release may trigger comes strictly after deregistration and free, and the
group's native state never outlives the connection.  The facade also removes
the group from the registered set. -/
theorem sourceGroup_deregistered_before_free (g : RtpIncomingSourceGroupFacade)
    (s : ConnState) :
    (g.destroy s).trace
      = s.trace ++ [EngineEvent.removeIncomingSourceGroup g.gid]
          ++ [EngineEvent.freeIncomingSourceGroup g.gid]
          ++ (if s.rc = 1 then [EngineEvent.removeICETransport s.username] else []) ∧
    (g.destroy s).registered = s.registered.erase g.gid := by
  refine ⟨?_, ?_⟩ <;>
    simp [RtpIncomingSourceGroupFacade.destroy, releaseGuard] <;> split <;> simp

/-- **C10.** Destroying a Connection Facade on which `set_listener` was never
called (`active_listener` is null) still calls `SetListener(nullptr)` on the
native session unconditionally — the listener-clear event is emitted even
though no bridge exists, in both the current and the legacy destructor. -/
theorem destroy_clears_listener_unconditionally (s : ConnState) :
    (RtpBundleTransportConnectionFacade.destroy { active_listener := none } s).trace
      = s.trace ++ [EngineEvent.setListener none]
          ++ (if s.rc = 1 then [EngineEvent.removeICETransport s.username] else []) ∧
    (RtpBundleTransportConnectionFacade.destroyLegacy { active_listener := none } s).trace
      = s.trace ++ [EngineEvent.setListener none,
          EngineEvent.removeICETransport s.username] := by
  constructor
  · simp only [RtpBundleTransportConnectionFacade.destroy, releaseGuard]
    split <;> simp
  · simp [RtpBundleTransportConnectionFacade.destroyLegacy]

/-- A fresh connection state holding one guard reference and no listener. -/
def freshConn : ConnState :=
  { username := "alice", rc := 1, registered := [], allocated := [], trace := [] }

/-- First `set_listener` call of the listener-rebind scenario: installs
adapter 1 on a connection that had no listener. -/
def c3Run1 : RtpBundleTransportConnectionFacade × ConnState :=
  set_listener 1 { active_listener := none } freshConn

/-- Second `set_listener` call of the listener-rebind scenario: installs
adapter 2, replacing adapter 1. -/
def c3Run2 : RtpBundleTransportConnectionFacade × ConnState :=
  set_listener 2 c3Run1.1 c3Run1.2

/-- **C3 (counterexample).** Calling `set_listener` twice produces the trace
install 1, destroy 1, install 2: the first adapter is destroyed (by the
`unique_ptr` move-assignment) BEFORE the second is installed, not after.  After
the first two events — i.e. between the destruction and the `SetListener`
call — the engine's registered listener is still adapter 1, which is already
destroyed: the claimed "no window in which the transport's registered listener
refers to a destroyed bridge" is false. -/
theorem set_listener_rebind_counterexample :
    c3Run2.2.trace
      = [EngineEvent.setListener (some 1), EngineEvent.destroyBridge 1,
         EngineEvent.setListener (some 2)] ∧
    listenerAfter (c3Run2.2.trace.take 2) = some 1 ∧
    EngineEvent.destroyBridge 1 ∈ c3Run2.2.trace.take 2 := by
  refine ⟨rfl, rfl, ?_⟩
  decide

/-- **C3 (amended).** After calling `set_listener` twice in succession, exactly
one bridge is registered with the native transport (the second): the facade's
slot and the engine's listener slot both hold the new adapter when the call
returns.  However the first bridge object is destroyed BEFORE the new one is
installed as the transport's listener (the `unique_ptr` assignment destroys it
first), so between the destruction and the install the transport's registered
listener still refers to the destroyed first bridge; only once `SetListener`
returns is the first bridge no longer registered. -/
theorem set_listener_rebind (b1 b2 : Nat) (f : RtpBundleTransportConnectionFacade)
    (s : ConnState) (hal : f.active_listener = some b1) :
    (set_listener b2 f s).2.trace
      = s.trace ++ [EngineEvent.destroyBridge b1, EngineEvent.setListener (some b2)] ∧
    (set_listener b2 f s).1.active_listener = some b2 ∧
    listenerAfter (set_listener b2 f s).2.trace = some b2 := by
  refine ⟨?_, rfl, ?_⟩
  · simp [set_listener, hal]
  · simp [set_listener, hal, listenerAfter, List.foldl_append]

/-- Closed witness for `set_listener_rebind`, at the concrete two-call run. -/
theorem set_listener_rebind_witness :
    c3Run2.2.trace
      = c3Run1.2.trace ++ [EngineEvent.destroyBridge 1, EngineEvent.setListener (some 2)] ∧
    c3Run2.1.active_listener = some 2 ∧
    listenerAfter c3Run2.2.trace = some 2 :=
  set_listener_rebind 1 2 c3Run1.1 c3Run1.2 rfl

/-- The Registry state of the duplicate-username scenario: a session for
"alice" already exists. -/
def c5Transport : RtpBundleTransportFacade :=
  { sessions := ["alice"], localPort := 5004 }

/-- **C5 (counterexample).** `add_ice_transport` produces the SAME single
generic error (`runtime_error("ice transport creation failed")`) for a
duplicate username ("alice" already has a session) as for a lower-level engine
failure (fresh transport, engine refuses): there is no distinct
`DuplicateUsernameError` / `SessionCreationError`, contradicting the claim that
the two failures are reported as distinct error values. -/
theorem add_ice_transport_counterexample :
    (add_ice_transport true "alice" c5Transport).1
      = Except.error (BridgeError.runtimeError "ice transport creation failed") ∧
    (add_ice_transport false "bob" { sessions := [], localPort := 5004 }).1
      = Except.error (BridgeError.runtimeError "ice transport creation failed") := by
  refine ⟨?_, ?_⟩ <;> rfl

/-- **C5 (amended).** `add_ice_transport` fails with the single generic error
`runtime_error("ice transport creation failed")` whenever the engine returns a
null connection — whether because the username already has a session or because
of a lower-level failure; the `media-server-sys` version signals the failure
explicitly (it throws), while the legacy `src/bridge.cc` version silently
returns null for the same condition (its own TODO marks this for fixing).  In
every failure case the transport's session map is left untouched, so an
existing connection for the username is unaffected. -/
theorem add_ice_transport_generic_failure (engineOk : Bool) (u : String)
    (t : RtpBundleTransportFacade) (hfail : u ∈ t.sessions ∨ engineOk = false) :
    (add_ice_transport engineOk u t).1
      = Except.error (BridgeError.runtimeError "ice transport creation failed") ∧
    (add_ice_transport engineOk u t).2 = t ∧
    (add_ice_transport_legacy engineOk u t).1 = none ∧
    (add_ice_transport_legacy engineOk u t).2 = t := by
  refine ⟨?_, ?_, ?_, ?_⟩ <;>
    simp only [add_ice_transport, add_ice_transport_legacy, if_pos hfail]

/-- Closed witness for `add_ice_transport_generic_failure`: adding "alice"
again on a transport that already has a session for "alice". -/
theorem add_ice_transport_generic_failure_witness :
    (add_ice_transport true "alice" c5Transport).2 = c5Transport ∧
    (add_ice_transport_legacy true "alice" c5Transport).1 = none ∧
    (add_ice_transport_legacy true "alice" c5Transport).2 = c5Transport :=
  have h := add_ice_transport_generic_failure true "alice" c5Transport
    (Or.inl (by decide))
  ⟨h.2.1, h.2.2.1, h.2.2.2⟩

/-- **C6.** If the transport rejects the group in `add_incoming_source_group`
(`AddIncomingSourceGroup` returns false), the call fails with the registration
error, no facade is constructed (the result is the error, not a facade), and no
native source-group state remains: the allocated set, the registered set and
the guard reference count are all exactly as before the call. -/
theorem add_incoming_source_group_atomic_failure (gid : Nat)
    (ty : MediaFrameType) (mid rid : String) (mediaSsrc rtxSsrc : Nat)
    (s : ConnState) (hfresh : gid ∉ s.allocated) :
    (add_incoming_source_group false gid ty mid rid mediaSsrc rtxSsrc s).1
      = Except.error (BridgeError.runtimeError "failed to add incoming source group") ∧
    (add_incoming_source_group false gid ty mid rid mediaSsrc rtxSsrc s).2.registered
      = s.registered ∧
    (add_incoming_source_group false gid ty mid rid mediaSsrc rtxSsrc s).2.allocated
      = s.allocated ∧
    (add_incoming_source_group false gid ty mid rid mediaSsrc rtxSsrc s).2.rc
      = s.rc := by
  refine ⟨rfl, rfl, ?_, rfl⟩
  simp only [add_incoming_source_group, Bool.false_eq_true, if_neg, List.filter_append]
  rw [List.filter_eq_self.mpr, List.filter_singleton]
  · simp
  · intro a ha
    simp only [decide_eq_true_eq]
    exact fun h => hfresh (h ▸ ha)

/-- Closed witness for `add_incoming_source_group_atomic_failure`: the engine
rejects group 5 on a fresh connection; everything is left as it was. -/
theorem add_incoming_source_group_atomic_failure_witness :
    (add_incoming_source_group false 5 MediaFrameType.Video "0" "" 111 112
      freshConn).2.allocated = freshConn.allocated ∧
    (add_incoming_source_group false 5 MediaFrameType.Video "0" "" 111 112
      freshConn).2.rc = freshConn.rc :=
  have h := add_incoming_source_group_atomic_failure 5 MediaFrameType.Video
    "0" "" 111 112 freshConn (by decide)
  ⟨h.2.2.1, h.2.2.2⟩

/-- **C8.** Registry construction `new_rtp_bundle_transport(port)` binds a UDP
socket via the engine's `Init(port)` (port 0 requesting an ephemeral port) and
fails with the bind error exactly when the socket cannot be opened
(`Init` returned 0); on failure no registry is constructed and no partial
registry state exists, and on success the registry starts with an empty session
map and the bound local port. -/
theorem registry_construction_bind (bindResult : Nat → Nat) (port : Nat) :
    (bindResult port = 0 →
      new_rtp_bundle_transport bindResult port
        = Except.error (BridgeError.runtimeError "failed to open socket")) ∧
    (bindResult port ≠ 0 →
      new_rtp_bundle_transport bindResult port
        = Except.ok { sessions := [], localPort := bindResult port }) := by
  refine ⟨fun h => ?_, fun h => ?_⟩ <;> simp [new_rtp_bundle_transport, h]

/-- Closed witness for `registry_construction_bind`: an engine whose bind
always fails makes construction fail; one that binds port 5004 yields a fresh
registry on that port. -/
theorem registry_construction_bind_witness :
    new_rtp_bundle_transport (fun _ => 0) 9999
      = Except.error (BridgeError.runtimeError "failed to open socket") ∧
    new_rtp_bundle_transport (fun _ => 5004) 0
      = Except.ok { sessions := [], localPort := 5004 } := by
  refine ⟨(registry_construction_bind (fun _ => 0) 9999).1 rfl, ?_⟩
  exact (registry_construction_bind (fun _ => 5004) 0).2 (by decide)

/-- **C9.** Modelled from the spec (the bodies of
`RtpStreamTransponderFacade`'s constructor and `set_incoming` are not among the
sources; §4.5).  After `create(outgoing)`, `set_incoming(a)`, `set_incoming(b)`
the transponder's bound incoming source is `b`; dropping `a`'s facade afterward
destroys only `a`'s group (the transponder is unaffected: it still binds `b`,
whose group stays alive with two references), and the Outgoing Group is never
destroyed as a side effect of unbinding or rebinding — its reference count
still carries the transponder's reference and no outgoing group was destroyed. -/
theorem transponder_rebind (o a b : Nat) (h : GroupHeap)
    (p1 p2 : RtpStreamTransponderFacade × GroupHeap) (h3 : GroupHeap)
    (hab : a ≠ b) (ha : h.incomingRc a = 1) (hb : h.incomingRc b = 1)
    (hp1 : p1 = transponder_set_incoming (transponder_create o h).1 a
      (transponder_create o h).2)
    (hp2 : p2 = transponder_set_incoming p1.1 b p1.2)
    (hh3 : h3 = drop_incoming_facade a p2.2) :
    p2.1.incoming = some b ∧
    p2.1.outgoing = o ∧
    h3.incomingRc b = 2 ∧
    h3.destroyedIncoming = h.destroyedIncoming ++ [a] ∧
    h3.outgoingRc o = h.outgoingRc o + 1 ∧
    h3.destroyedOutgoing = h.destroyedOutgoing := by
  have hba : b ≠ a := Ne.symm hab
  subst hp2 hp1 hh3
  refine ⟨rfl, rfl, ?_, ?_, ?_, ?_⟩ <;>
    simp [transponder_create, transponder_set_incoming, drop_incoming_facade,
      incInRef, decInRef, incOutRef, ha, hb, hab, hba]

/-- The group heap of the concrete transponder scenario: incoming groups 0 and
1 each held once (by their facades), outgoing group 7 held once. -/
def c9Heap : GroupHeap :=
  { incomingRc := fun k => if k = 0 ∨ k = 1 then 1 else 0,
    outgoingRc := fun k => if k = 7 then 1 else 0,
    destroyedIncoming := [], destroyedOutgoing := [] }

/-- Transponder scenario step 1: create on outgoing 7, bind incoming 0. -/
def c9Step1 : RtpStreamTransponderFacade × GroupHeap :=
  transponder_set_incoming (transponder_create 7 c9Heap).1 0
    (transponder_create 7 c9Heap).2

/-- Transponder scenario step 2: rebind to incoming 1. -/
def c9Step2 : RtpStreamTransponderFacade × GroupHeap :=
  transponder_set_incoming c9Step1.1 1 c9Step1.2

/-- Transponder scenario step 3: drop incoming 0's facade. -/
def c9Final : GroupHeap :=
  drop_incoming_facade 0 c9Step2.2

/-- Closed witness for `transponder_rebind` at the concrete scenario. -/
theorem transponder_rebind_witness :
    c9Step2.1.incoming = some 1 ∧
    c9Step2.1.outgoing = 7 ∧
    c9Final.incomingRc 1 = 2 ∧
    c9Final.destroyedIncoming = c9Heap.destroyedIncoming ++ [0] ∧
    c9Final.outgoingRc 7 = c9Heap.outgoingRc 7 + 1 ∧
    c9Final.destroyedOutgoing = c9Heap.destroyedOutgoing :=
  transponder_rebind 7 0 1 c9Heap c9Step1 c9Step2 c9Final (by decide)
    (by decide) (by decide) rfl rfl rfl
